import Mathlib

/-!
Verification of the Project Chimera scaffold (Planner-Worker-Judge
orchestration service).

The development shallowly embeds the Python sources under
`src/environment/project-chimera/src/chimera/`:

* `orchestration/langgraph_state.py` — the state machine (`StateType`,
  `_define_transitions`, `transition`) is real code and is embedded
  faithfully, including the error message built for invalid transitions.
* `agents/worker.py`, `agents/judge.py`, `persistence/persistence.py`,
  `mcp/mcp_client.py`, `api/*.py`, `main.py` — method bodies that are
  placeholder stubs are embedded as the stubs they are; behaviour that the
  sources only declare (docstrings, config constants, planned steps) is
  modelled from the specification, with each such definition marked
  `Modelled from the spec:` in its doc comment.

Numbers that are Python floats are modelled as rationals (ℚ); Python dicts
are modelled as structures with the fields the code reads.
-/

namespace Chimera

/-! ### String containment helper

Used to state that an error message identifies a state name: `hasPre pat l`
is true when `pat` is an initial segment of `l`, and `hasSub pat l` when
`pat` occurs contiguously anywhere inside `l`. -/

/-- `hasPre pat l = true` iff the character list `pat` is an initial segment of `l`. -/
def hasPre : List Char → List Char → Bool
  | [], _ => true
  | _ :: _, [] => false
  | p :: ps, c :: cs => p == c && hasPre ps cs

/-- `hasSub pat l = true` iff `pat` occurs contiguously inside `l`. -/
def hasSub : List Char → List Char → Bool
  | pat, [] => hasPre pat []
  | pat, c :: cs => hasPre pat (c :: cs) || hasSub pat cs

/-- String version of `hasSub`: the first string occurs inside the second. -/
def strContainsSub (pat s : String) : Bool := hasSub pat.data s.data

namespace Orchestration

/-- The `StateType` enum of `orchestration/langgraph_state.py`
(members INIT, EXECUTE_TASK, EVALUATE_RESULT). -/
inductive StateType where
  | init
  | execute_task
  | evaluate_result
deriving DecidableEq, Repr

/-- `LangGraphStateMachine._define_transitions`: the allowed-transition
table, mapping each state to its allowed next states, exactly as the
Python dict literal. -/
def transition_rules : StateType → List StateType
  | .init => [.execute_task]
  | .execute_task => [.evaluate_result, .execute_task]
  | .evaluate_result => [.execute_task, .init]

/-- Rendering of a `StateType` member as it appears in the transition
error f-string (the enum member name, `StateType.INIT` etc.). -/
def stateName : StateType → String
  | .init => "StateType.INIT"
  | .execute_task => "StateType.EXECUTE_TASK"
  | .evaluate_result => "StateType.EVALUATE_RESULT"

/-- Rendering of a list of states as in the f-string
`f"Allowed: \x7bself.transition_rules[self.current_state]\x7d"`
(list brackets and comma-separated members; the per-member value quoting of
Python repr is abstracted to the member name). -/
def stateListStr : List StateType → String
  | [] => ""
  | [s] => stateName s
  | s :: rest => stateName s ++ ", " ++ stateListStr rest

/-- The message of the `ValueError` raised by
`LangGraphStateMachine.transition` for a disallowed transition:
`f"Invalid transition: \x7bcur\x7d -> \x7bnext\x7d. Allowed: \x7ballowed\x7d"`. -/
def invalidTransitionMsg (cur next : StateType) : String :=
  "Invalid transition: " ++ stateName cur ++ " -> " ++ stateName next ++
    ". Allowed: [" ++ stateListStr (transition_rules cur) ++ "]"

/-- The mutable fields of `LangGraphStateMachine`: `current_state` and
`state_history` (the `transition_rules` field is the fixed table above). -/
structure Machine where
  current_state : StateType
  state_history : List StateType
deriving DecidableEq, Repr

/-- `LangGraphStateMachine.transition(next_state, context)`: if `next_state`
is not in `transition_rules[current_state]` it raises `ValueError` (before
any mutation), otherwise it appends the old `current_state` to
`state_history`, sets `current_state := next_state` and returns the context
unchanged.  The embedding returns the machine after the call together with
either the returned context or the raised error message. -/
def transitionRun {α : Type} (m : Machine) (next : StateType) (context : α) :
    Machine × Except String α :=
  if next ∈ transition_rules m.current_state then
    (⟨next, m.state_history ++ [m.current_state]⟩, Except.ok context)
  else
    (m, Except.error (invalidTransitionMsg m.current_state next))

end Orchestration

namespace Worker

/-- The execution-status values of a WorkerResult in `agents/worker.py`
("success", "failure", "timeout"). -/
inductive WStatus where
  | success
  | failure
  | timeout
deriving DecidableEq, Repr

/-- The WorkerResult dictionary returned by `WorkerAgent.execute_task`
(fields the claims are about; `output` is `Any` in Python and is kept
abstract as an optional string payload). -/
structure WorkerResult where
  task_id : String
  status : WStatus
  output : Option String
  error : Option String
  error_type : Option String
  execution_time : ℚ
deriving DecidableEq, Repr

/-- The task dictionary as read by `WorkerAgent.execute_task`, which only
accesses `task.get("id", "unknown")`: a dict without an "id" key is `none`. -/
structure TaskDict where
  id : Option String
deriving DecidableEq, Repr

/-- `WorkerAgent.execute_task`: the body is a stub that, for every task,
returns the fixed failure WorkerResult
`\x7b"task_id": task.get("id", "unknown"), "status": "failure", "output": None,
"error": "Stub implementation - no execution performed",
"error_type": "NotImplementedError", "execution_time": 0.0, ...\x7d`. -/
def execute_task (task : TaskDict) : WorkerResult :=
  { task_id := task.id.getD "unknown"
    status := WStatus.failure
    output := none
    error := some "Stub implementation - no execution performed"
    error_type := some "NotImplementedError"
    execution_time := 0 }

/-- Task types of the spec's Task data model (§3): tool-call | computation |
validation (the source docstring calls the first "mcp_call"). -/
inductive TaskType where
  | tool_call
  | computation
  | validation
deriving DecidableEq, Repr

/-- The Task fields `WorkerAgent.validate_task` is specified to check:
`timeout_seconds` (bounded 5–300) and `tool_name` (required iff the type is
tool-call). -/
structure Task where
  id : String
  ttype : TaskType
  tool_name : Option String
  timeout_seconds : ℤ
deriving DecidableEq, Repr

/-- Modelled from the spec: the body of `WorkerAgent.validate_task` is a
placeholder (`return True`); the validation it documents — and §4.2 of the
spec states — is missing from the source.  Per the spec: the task is valid
iff `timeout_seconds` is within [5,300] and `tool_name` is present when the
task type is tool-call. -/
def validate_task (t : Task) : Bool :=
  (decide (5 ≤ t.timeout_seconds) && decide (t.timeout_seconds ≤ 300)) &&
    (match t.ttype with
     | TaskType.tool_call => t.tool_name.isSome
     | _ => true)

/-- The MCP error kinds of the spec's error taxonomy (§4.1), matching the
exception classes of `mcp/mcp_exceptions.py` and the kind strings used in
`WorkerAgent.retry_policy` and `MCPClient.retryable_errors`. -/
inductive ErrorKind where
  | timeout
  | rate_limit
  | server_unavailable
  | tool_not_found
  | authentication
  | validation
deriving DecidableEq, Repr

/-- `WorkerAgent.retry_policy["max_retries"]` (and the `MCPClient.__init__`
default): 3. -/
def max_retries : ℕ := 3

/-- `WorkerAgent.retry_policy["backoff_seconds"]` (and the
`MCPClient.__init__` default): 2. -/
def backoff_seconds : ℕ := 2

/-- `WorkerAgent.retry_policy["retry_on_errors"]`:
["timeout", "rate_limit", "server_unavailable"]. -/
def retry_on_errors : List ErrorKind :=
  [ErrorKind.timeout, ErrorKind.rate_limit, ErrorKind.server_unavailable]

/-- Modelled from the spec: the body of `WorkerAgent.retry_task` is a
placeholder (`return False`); the decision it documents — check the error
type against the retryable kinds and the retry count against
`max_retries` — is missing from the source.  Per the spec (§4.1): retry iff
the error kind is retryable and fewer than `max_retries` retries were
performed. -/
def retry_task (retry_count : ℕ) (error_type : ErrorKind) : Bool :=
  decide (error_type ∈ retry_on_errors) && decide (retry_count < max_retries)

/-- Exponential backoff `backoff_seconds * 2 ** attempt` from the retry
policy documented in `MCPClient.call_tool` and §4.1 of the spec. -/
def backoff (attempt : ℕ) : ℕ := backoff_seconds * 2 ^ attempt

/-- Outcome of one call attempt: success, or a failure of a given kind. -/
inductive AttemptOutcome where
  | success
  | failed (kind : ErrorKind)
deriving DecidableEq, Repr

/-- Result of running a call with the retry policy: whether it succeeded,
how many retries were performed, the last error kind (if any), and the
backoff waits applied before each retry. -/
structure CallResult where
  succeeded : Bool
  retries : ℕ
  lastError : Option ErrorKind
  backoffs : List ℕ
deriving DecidableEq, Repr

/-- Modelled from the spec: the retry loop of `MCPClient.call_tool`
(its body is a stub) per §4.1 — attempt the call; on success stop; on a
failure, retry (after the exponential backoff wait) exactly when
`retry_task` says so, else fail immediately.  `outcomes i` is the outcome
of attempt `i`; `fuel` bounds the recursion and is set larger than
`max_retries` by the entry point `call_tool`. -/
def runAttempts (outcomes : ℕ → AttemptOutcome) : ℕ → ℕ → CallResult
  | attempt, fuel =>
    match outcomes attempt, fuel with
    | AttemptOutcome.success, _ => ⟨true, attempt, none, []⟩
    | AttemptOutcome.failed k, 0 => ⟨false, attempt, some k, []⟩
    | AttemptOutcome.failed k, fuel' + 1 =>
      if retry_task attempt k then
        let r := runAttempts outcomes (attempt + 1) fuel'
        ⟨r.succeeded, r.retries, r.lastError, backoff attempt :: r.backoffs⟩
      else
        ⟨false, attempt, some k, []⟩

/-- Modelled from the spec: `MCPClient.call_tool` with the default retry
configuration — run the attempts from attempt 0 under the retry policy. -/
def call_tool (outcomes : ℕ → AttemptOutcome) : CallResult :=
  runAttempts outcomes 0 (max_retries + 1)

end Worker

namespace Judge

/-- The quality-metrics breakdown used by `JudgeAgent` (keys
`format_correctness`, `completeness`, `relevance`, each a float in [0,1],
modelled as rationals). -/
structure QualityMetrics where
  format_correctness : ℚ
  completeness : ℚ
  relevance : ℚ
deriving DecidableEq, Repr

/-- `JudgeAgent.auto_approve_threshold` from `JudgeAgent.__init__`: 0.90. -/
def auto_approve_threshold : ℚ := 9 / 10

/-- `JudgeAgent.auto_reject_threshold` from `JudgeAgent.__init__`: 0.70. -/
def auto_reject_threshold : ℚ := 7 / 10

/-- Modelled from the spec: the body of `JudgeAgent.calculate_confidence`
is a placeholder (`return 0.0`); the weighted average it documents is
missing from the source.  Per §4.3 of the spec: confidence is the weighted
sum 0.3·format_correctness + 0.3·completeness + 0.4·relevance, clamped to
[0,1]. -/
def calculate_confidence (m : QualityMetrics) : ℚ :=
  max 0 (min 1
    (3 / 10 * m.format_correctness + 3 / 10 * m.completeness + 2 / 5 * m.relevance))

/-- The ReviewDecision fields the tiering claims are about. -/
structure ReviewDecision where
  confidence : ℚ
  approved : Bool
  requires_human_review : Bool
deriving DecidableEq, Repr

/-- Modelled from the spec: the body of `JudgeAgent.assess_content` is a
placeholder returning a fixed dictionary; steps 3–5 of its documented
future implementation (compute quality metrics, weighted confidence, HITL
routing) are missing from the source.  The LLM-computed quality metrics are
taken as the input; the routing applies the documented HITL logic with the
thresholds of `JudgeAgent.__init__`: confidence > 0.90 auto-approves,
0.70 ≤ confidence ≤ 0.90 requires human review, confidence < 0.70
auto-rejects. -/
def assess_content (m : QualityMetrics) : ReviewDecision :=
  if auto_approve_threshold < calculate_confidence m then
    ⟨calculate_confidence m, true, false⟩
  else if auto_reject_threshold ≤ calculate_confidence m ∧
      calculate_confidence m ≤ auto_approve_threshold then
    ⟨calculate_confidence m, false, true⟩
  else
    ⟨calculate_confidence m, false, false⟩

end Judge

namespace Persistence

/-- The GlobalState session fields the persistence claims are about
(`session_id`, `goal`, `status`, and the `version` counter used for
optimistic concurrency control). -/
structure Session where
  session_id : String
  goal : String
  status : String
  version : ℕ
deriving DecidableEq, Repr

/-- The key-value store backing `PersistenceManager` (session_id → stored
session), modelled as a function. -/
def Store := String → Option Session

/-- Modelled from the spec: the body of `PersistenceManager.save_session`
is a print-and-return-True stub; the optimistic-concurrency guard it
documents (planned steps 2 and 6: check the stored version, increment the
version) and §5 of the spec describes is missing from the source.  Per the
spec: the write succeeds only if the stored version is unchanged from the
version the writer read (carried in the session); on a mismatch it fails
with a version conflict; a successful write stores the session with its
version incremented. -/
def save_session (store : Store) (session : Session) : Except String Store :=
  match store session.session_id with
  | some stored =>
    if stored.version = session.version then
      Except.ok (fun k =>
        if k = session.session_id then
          some { session with version := session.version + 1 }
        else store k)
    else
      Except.error "VersionConflictError: OCC version mismatch"
  | none =>
    Except.ok (fun k =>
      if k = session.session_id then
        some { session with version := session.version + 1 }
      else store k)

namespace Stub

/-- `PersistenceManager.save_session` as written: prints a warning and
returns True for every session. -/
def save_session (session : Session) : Bool := true

/-- `PersistenceManager.get_session` as written: prints a warning and
returns None for every session id. -/
def get_session (session_id : String) : Option Session := none

/-- `PersistenceManager.save_task` as written: returns True for every
task (the task dict is never inspected). -/
def save_task {α : Type} (task : α) : Bool := true

/-- `PersistenceManager.get_task` as written: returns None for every
task id. -/
def get_task {α : Type} (task_id : String) : Option α := none

/-- `PersistenceManager.save_review` as written: returns True for every
review (the review dict is never inspected). -/
def save_review {α : Type} (review : α) : Bool := true

/-- `PersistenceManager.get_review` as written: returns None for every
review id. -/
def get_review {α : Type} (review_id : String) : Option α := none

end Stub

end Persistence

namespace Api

/-- FastAPI's `HTTPException` as raised by the route handlers: a status
code and a detail string. -/
structure HTTPException where
  status_code : ℕ
  detail : String
deriving DecidableEq, Repr

/-- A JSON response with a status code and a flat string-keyed content map
(the nested `checks` dict of the health endpoint is flattened). -/
structure JSONResponse where
  status_code : ℕ
  content : List (String × String)
deriving DecidableEq, Repr

/-- `POST /judge/assess` (`api/judge.py assess_content`): the body raises
`HTTPException(501, "Judge agent not yet implemented")` without inspecting
the request, so the request and response types are kept abstract. -/
def judge_assess {Req Res : Type} (request : Req) : Except HTTPException Res :=
  Except.error ⟨501, "Judge agent not yet implemented"⟩

/-- `GET /judge/reviews` (`api/judge.py get_pending_reviews`): raises 501. -/
def judge_get_pending_reviews {Res : Type} (u : Unit) : Except HTTPException Res :=
  Except.error ⟨501, "Review listing not yet implemented"⟩

/-- `POST /judge/reviews/.../approve` (`api/judge.py approve_review`):
raises 501 for every review id and request. -/
def judge_approve_review {Req Res : Type} (review_id : String) (request : Req) :
    Except HTTPException Res :=
  Except.error ⟨501, "Review approval not yet implemented"⟩

/-- `POST /judge/reviews/.../reject` (`api/judge.py reject_review`):
raises 501 for every review id and request. -/
def judge_reject_review {Req Res : Type} (review_id : String) (request : Req) :
    Except HTTPException Res :=
  Except.error ⟨501, "Review rejection not yet implemented"⟩

/-- `POST /planner/tasks` (`api/planner.py submit_goal`): raises 501. -/
def planner_submit_goal {Req Res : Type} (request : Req) : Except HTTPException Res :=
  Except.error ⟨501, "Planner agent not yet implemented"⟩

/-- `GET /planner/tasks/...` (`api/planner.py get_tasks`): raises 501. -/
def planner_get_tasks {Res : Type} (session_id : String) : Except HTTPException Res :=
  Except.error ⟨501, "Task retrieval not yet implemented"⟩

/-- `POST /worker/execute` (`api/worker.py execute_task`): raises 501. -/
def worker_execute_task {Req Res : Type} (request : Req) : Except HTTPException Res :=
  Except.error ⟨501, "Worker agent not yet implemented"⟩

/-- `GET /worker/status/...` (`api/worker.py get_task_status`): raises 501. -/
def worker_get_task_status {Res : Type} (task_id : String) : Except HTTPException Res :=
  Except.error ⟨501, "Task status retrieval not yet implemented"⟩

/-- The root health-check handler `GET /` of `main.py`: always returns a
200 JSONResponse with the service information (`now` stands for the
`datetime.utcnow().isoformat()` string). -/
def root (now : String) : JSONResponse :=
  ⟨200, [("status", "ok"), ("service", "Project Chimera API"),
    ("version", "0.1.0"), ("timestamp", now ++ "Z")]⟩

/-- The `GET /health` handler of `main.py`: always returns a 200
JSONResponse with the stub component checks. -/
def health_check (now : String) : JSONResponse :=
  ⟨200, [("status", "healthy"), ("redis", "not_implemented"),
    ("mcp_tenx_sense", "not_implemented"), ("agents", "not_implemented"),
    ("timestamp", now ++ "Z")]⟩

end Api

end Chimera

namespace Chimera

open Orchestration

/-- Claim C3 counterexample: the allowed-transition table of
`_define_transitions` contains INIT among the allowed next states of
EVALUATE_RESULT, and a direct EVALUATE_RESULT → INIT transition request on a
machine in state EVALUATE_RESULT succeeds (returns the context, raises no
error) and moves the machine to INIT — it is not rejected as invalid. -/
theorem evaluate_result_to_init_is_not_rejected :
    StateType.init ∈ transition_rules StateType.evaluate_result ∧
    (transitionRun ⟨StateType.evaluate_result, []⟩ StateType.init (0 : Nat)).2 =
      Except.ok 0 ∧
    (transitionRun ⟨StateType.evaluate_result, []⟩ StateType.init (0 : Nat)).1.current_state =
      StateType.init := by
  refine ⟨by decide, rfl, rfl⟩

/-- Claim C3 (amended): the transition operation accepts a direct
EVALUATE_RESULT → INIT request (INIT is in the allowed-transition table for
EVALUATE_RESULT), for every context and every machine whose current state is
EVALUATE_RESULT; and from INIT the transition to EXECUTE_TASK is allowed. -/
theorem transition_evaluate_to_init_and_init_to_execute {α : Type}
    (m : Machine) (context : α) :
    (m.current_state = StateType.evaluate_result →
      (transitionRun m StateType.init context).2 = Except.ok context ∧
      (transitionRun m StateType.init context).1.current_state = StateType.init) ∧
    (m.current_state = StateType.init →
      (transitionRun m StateType.execute_task context).2 = Except.ok context ∧
      (transitionRun m StateType.execute_task context).1.current_state =
        StateType.execute_task) := by
  constructor
  · intro h
    simp [transitionRun, h, transition_rules]
  · intro h
    simp [transitionRun, h, transition_rules]

/-- Witness for the amended C3 theorem at concrete machines. -/
theorem transition_evaluate_to_init_and_init_to_execute_witness :
    (transitionRun ⟨StateType.evaluate_result, []⟩ StateType.init (0 : Nat)).2 =
      Except.ok 0 ∧
    (transitionRun ⟨StateType.init, []⟩ StateType.execute_task (0 : Nat)).2 =
      Except.ok 0 :=
  ⟨((transition_evaluate_to_init_and_init_to_execute
      ⟨StateType.evaluate_result, []⟩ 0).1 rfl).1,
   ((transition_evaluate_to_init_and_init_to_execute
      ⟨StateType.init, []⟩ 0).2 rfl).1⟩

/-- Claim C4: for every machine and every requested next state not in the
allowed-transition table for the current state, `transition` raises an error
(never silently ignores the request), and the error message contains the
rendering of the current state, of the requested state, and of every state
in the allowed set. -/
theorem transition_rejects_invalid_with_informative_error {α : Type}
    (m : Machine) (next : StateType) (context : α)
    (h : next ∉ transition_rules m.current_state) :
    ∃ msg, (transitionRun m next context).2 = Except.error msg ∧
      strContainsSub (stateName m.current_state) msg = true ∧
      strContainsSub (stateName next) msg = true ∧
      ∀ a ∈ transition_rules m.current_state, strContainsSub (stateName a) msg = true := by
  refine ⟨invalidTransitionMsg m.current_state next, ?_, ?_, ?_, ?_⟩
  · simp [transitionRun, h]
  · obtain ⟨cur, hist⟩ := m
    cases cur <;> cases next <;> simp_all [transition_rules] <;> decide
  · obtain ⟨cur, hist⟩ := m
    cases cur <;> cases next <;> simp_all [transition_rules] <;> decide
  · obtain ⟨cur, hist⟩ := m
    cases cur <;> cases next <;> simp_all [transition_rules] <;> decide

/-- Witness for C4: requesting EVALUATE_RESULT from INIT is rejected with an
error message naming INIT, EVALUATE_RESULT and the allowed EXECUTE_TASK. -/
theorem transition_rejects_invalid_with_informative_error_witness :
    ∃ msg, (transitionRun ⟨StateType.init, []⟩ StateType.evaluate_result (0 : Nat)).2 =
        Except.error msg ∧
      strContainsSub (stateName StateType.init) msg = true ∧
      strContainsSub (stateName StateType.evaluate_result) msg = true ∧
      ∀ a ∈ transition_rules StateType.init, strContainsSub (stateName a) msg = true :=
  transition_rejects_invalid_with_informative_error
    ⟨StateType.init, []⟩ StateType.evaluate_result 0 (by decide)

/-- Claim C5: on a retryable error kind (timeout, rate_limit,
server_unavailable) the retry decision is to retry, up to `max_retries`
(default 3) with exponential backoff `backoff_seconds * 2 ^ attempt`
(default base 2 seconds, giving 2s, 4s, 8s); on a permanent error kind
(tool_not_found, authentication, validation) the call fails immediately
with zero retries. -/
theorem retry_policy_matches_spec :
    (∀ (n : ℕ) (k : Worker.ErrorKind), k ∈ Worker.retry_on_errors →
      n < Worker.max_retries → Worker.retry_task n k = true) ∧
    (∀ n : ℕ, Worker.retry_task n Worker.ErrorKind.tool_not_found = false ∧
      Worker.retry_task n Worker.ErrorKind.authentication = false ∧
      Worker.retry_task n Worker.ErrorKind.validation = false) ∧
    (Worker.max_retries = 3 ∧ Worker.backoff_seconds = 2 ∧
      Worker.backoff 0 = 2 ∧ Worker.backoff 1 = 4 ∧ Worker.backoff 2 = 8) ∧
    (∀ (outcomes : ℕ → Worker.AttemptOutcome) (k : Worker.ErrorKind),
      k ∉ Worker.retry_on_errors → outcomes 0 = Worker.AttemptOutcome.failed k →
      Worker.call_tool outcomes = ⟨false, 0, some k, []⟩) ∧
    (∀ (outcomes : ℕ → Worker.AttemptOutcome) (k : Worker.ErrorKind),
      k ∈ Worker.retry_on_errors →
      (∀ i, i ≤ Worker.max_retries → outcomes i = Worker.AttemptOutcome.failed k) →
      Worker.call_tool outcomes = ⟨false, Worker.max_retries, some k, [2, 4, 8]⟩) := by
  refine ⟨?_, ?_, ?_, ?_, ?_⟩
  · intro n k hk hn
    simp [Worker.retry_task, hk, hn]
  · intro n
    refine ⟨?_, ?_, ?_⟩ <;> simp [Worker.retry_task, Worker.retry_on_errors]
  · refine ⟨rfl, rfl, rfl, rfl, rfl⟩
  · intro outcomes k hk h0
    have hr : Worker.retry_task 0 k = false := by
      simp [Worker.retry_task, hk]
    simp [Worker.call_tool, Worker.max_retries, Worker.runAttempts, h0, hr]
  · intro outcomes k hk h
    have h0 := h 0 (by simp [Worker.max_retries])
    have h1 := h 1 (by simp [Worker.max_retries])
    have h2 := h 2 (by simp [Worker.max_retries])
    have h3 := h 3 (by simp [Worker.max_retries])
    have hr0 : Worker.retry_task 0 k = true := by
      simp [Worker.retry_task, hk, Worker.max_retries]
    have hr1 : Worker.retry_task 1 k = true := by
      simp [Worker.retry_task, hk, Worker.max_retries]
    have hr2 : Worker.retry_task 2 k = true := by
      simp [Worker.retry_task, hk, Worker.max_retries]
    have hr3 : Worker.retry_task 3 k = false := by
      simp [Worker.retry_task, Worker.max_retries]
    simp [Worker.call_tool, Worker.max_retries, Worker.runAttempts,
      h0, h1, h2, h3, hr0, hr1, hr2, hr3,
      Worker.backoff, Worker.backoff_seconds]

/-- Witness for C5: a tool that always fails with the retryable kind
`timeout` exhausts 3 retries with backoffs 2s, 4s, 8s, while a tool that
fails with the permanent kind `authentication` fails with zero retries. -/
theorem retry_policy_matches_spec_witness :
    Worker.call_tool (fun _ => Worker.AttemptOutcome.failed Worker.ErrorKind.timeout) =
      ⟨false, Worker.max_retries, some Worker.ErrorKind.timeout, [2, 4, 8]⟩ ∧
    Worker.call_tool (fun _ => Worker.AttemptOutcome.failed Worker.ErrorKind.authentication) =
      ⟨false, 0, some Worker.ErrorKind.authentication, []⟩ ∧
    Worker.retry_task 0 Worker.ErrorKind.timeout = true :=
  ⟨retry_policy_matches_spec.2.2.2.2 _ _ (by decide) (fun _ _ => rfl),
   retry_policy_matches_spec.2.2.2.1 _ _ (by decide) rfl,
   retry_policy_matches_spec.1 0 Worker.ErrorKind.timeout (by decide) (by decide)⟩

/-- Claim C6: `validate_task` returns true for a task iff the task's
timeout is within [5,300] and, when the task type is a tool call, its tool
name is present; and a task failing validation is a permanent failure — the
`validation` error kind is never retried. -/
theorem validate_task_matches_spec :
    (∀ t : Worker.Task, Worker.validate_task t = true ↔
      ((5 ≤ t.timeout_seconds ∧ t.timeout_seconds ≤ 300) ∧
        (t.ttype = Worker.TaskType.tool_call → t.tool_name.isSome = true))) ∧
    (∀ (t : Worker.Task) (n : ℕ), Worker.validate_task t = false →
      Worker.retry_task n Worker.ErrorKind.validation = false) := by
  constructor
  · intro t
    obtain ⟨i, ty, tool, secs⟩ := t
    cases ty <;>
      simp [Worker.validate_task, and_assoc]
  · intro t n _
    simp [Worker.retry_task, Worker.retry_on_errors]

/-- Witness for C6: a well-formed tool-call task with a 30s timeout
validates, and a task with timeout 0 fails validation, whose `validation`
error kind is not retried. -/
theorem validate_task_matches_spec_witness :
    Worker.validate_task ⟨"t1", Worker.TaskType.tool_call, some "trend_fetch", 30⟩ = true ∧
    Worker.retry_task 0 Worker.ErrorKind.validation = false :=
  ⟨(validate_task_matches_spec.1 _).mpr
      ⟨⟨by norm_num, by norm_num⟩, fun _ => rfl⟩,
   validate_task_matches_spec.2 ⟨"t1", Worker.TaskType.tool_call, none, 0⟩ 0 (by decide)⟩

/-- Claim C7: every WorkerResult returned by `WorkerAgent.execute_task`
satisfies the invariant that exactly one of output and error is populated,
determined by status: output present iff status is success, and error
present iff status is failure or timeout.  (The stub body returns one fixed
failure result with an error and no output, which satisfies the
invariant.) -/
theorem execute_task_result_invariant (task : Worker.TaskDict) :
    ((Worker.execute_task task).output.isSome = true ↔
      (Worker.execute_task task).status = Worker.WStatus.success) ∧
    ((Worker.execute_task task).error.isSome = true ↔
      ((Worker.execute_task task).status = Worker.WStatus.failure ∨
        (Worker.execute_task task).status = Worker.WStatus.timeout)) ∧
    ¬((Worker.execute_task task).output.isSome = true ∧
      (Worker.execute_task task).error.isSome = true) ∧
    ((Worker.execute_task task).output.isSome = true ∨
      (Worker.execute_task task).error.isSome = true) := by
  simp [Worker.execute_task]

/-- Claim C10: `transition` is atomic on error — whenever it raises, the
machine's `current_state` and `state_history` are unchanged (the raise
happens before any mutation); and on every successful transition the
previous `current_state` is appended to `state_history` and `current_state`
becomes the requested state, with the context returned unchanged. -/
theorem transition_atomic_on_error {α : Type}
    (m : Machine) (next : StateType) (context : α) :
    (next ∉ transition_rules m.current_state →
      (transitionRun m next context).1 = m ∧
      (transitionRun m next context).2 =
        Except.error (invalidTransitionMsg m.current_state next)) ∧
    (next ∈ transition_rules m.current_state →
      (transitionRun m next context).2 = Except.ok context ∧
      (transitionRun m next context).1.current_state = next ∧
      (transitionRun m next context).1.state_history =
        m.state_history ++ [m.current_state]) := by
  constructor
  · intro h
    simp [transitionRun, h]
  · intro h
    simp [transitionRun, h]

/-- Witness for C10 at concrete machines: an invalid INIT → INIT request
leaves the machine unchanged, and a valid INIT → EXECUTE_TASK request
records INIT in the history. -/
theorem transition_atomic_on_error_witness :
    (transitionRun ⟨StateType.init, [StateType.execute_task]⟩ StateType.init (0 : Nat)).1 =
      ⟨StateType.init, [StateType.execute_task]⟩ ∧
    (transitionRun ⟨StateType.init, []⟩ StateType.execute_task (0 : Nat)).1.state_history =
      [StateType.init] :=
  ⟨((transition_atomic_on_error ⟨StateType.init, [StateType.execute_task]⟩
      StateType.init 0).1 (by decide)).1,
   by
    have h := ((transition_atomic_on_error ⟨StateType.init, []⟩
      StateType.execute_task 0).2 (by decide)).2.2
    simpa using h⟩

/-- Claim C1: every ReviewDecision produced by the Judge's assessment has
its flags determined by the tier of its confidence — confidence > 0.90
gives approved and no human review (Tier 1), 0.70 ≤ confidence ≤ 0.90 gives
not-approved with human review (Tier 2), confidence < 0.70 gives
not-approved without human review (Tier 3) — and the three tiers are
mutually exclusive and exhaustive over all confidence values in [0,1], with
Tier 1 requiring strictly greater than 0.90. -/
theorem assess_content_hitl_tiering :
    (∀ m : Judge.QualityMetrics,
      ((Judge.assess_content m).confidence > Judge.auto_approve_threshold →
        (Judge.assess_content m).approved = true ∧
        (Judge.assess_content m).requires_human_review = false) ∧
      (Judge.auto_reject_threshold ≤ (Judge.assess_content m).confidence ∧
        (Judge.assess_content m).confidence ≤ Judge.auto_approve_threshold →
        (Judge.assess_content m).approved = false ∧
        (Judge.assess_content m).requires_human_review = true) ∧
      ((Judge.assess_content m).confidence < Judge.auto_reject_threshold →
        (Judge.assess_content m).approved = false ∧
        (Judge.assess_content m).requires_human_review = false)) ∧
    (∀ c : ℚ, 0 ≤ c → c ≤ 1 →
      (Judge.auto_approve_threshold < c ∨
        (Judge.auto_reject_threshold ≤ c ∧ c ≤ Judge.auto_approve_threshold) ∨
        c < Judge.auto_reject_threshold) ∧
      (Judge.auto_approve_threshold < c →
        ¬(Judge.auto_reject_threshold ≤ c ∧ c ≤ Judge.auto_approve_threshold) ∧
        ¬(c < Judge.auto_reject_threshold)) ∧
      ((Judge.auto_reject_threshold ≤ c ∧ c ≤ Judge.auto_approve_threshold) →
        ¬(Judge.auto_approve_threshold < c) ∧ ¬(c < Judge.auto_reject_threshold)) ∧
      (c < Judge.auto_reject_threshold →
        ¬(Judge.auto_approve_threshold < c) ∧
        ¬(Judge.auto_reject_threshold ≤ c ∧ c ≤ Judge.auto_approve_threshold))) := by
  have hlt : Judge.auto_reject_threshold < Judge.auto_approve_threshold := by
    norm_num [Judge.auto_reject_threshold, Judge.auto_approve_threshold]
  constructor
  · intro m
    unfold Judge.assess_content
    by_cases h1 : Judge.auto_approve_threshold < Judge.calculate_confidence m
    · rw [if_pos h1]
      refine ⟨fun _ => ⟨rfl, rfl⟩, fun h => ?_, fun h => ?_⟩
      · exact absurd h1 (not_lt.mpr h.2)
      · exact absurd h1 (not_lt.mpr (le_of_lt (lt_trans h hlt)))
    · rw [if_neg h1]
      by_cases h2 : Judge.auto_reject_threshold ≤ Judge.calculate_confidence m ∧
          Judge.calculate_confidence m ≤ Judge.auto_approve_threshold
      · rw [if_pos h2]
        refine ⟨fun h => absurd h h1, fun _ => ⟨rfl, rfl⟩, fun h => ?_⟩
        exact absurd h (not_lt.mpr h2.1)
      · rw [if_neg h2]
        refine ⟨fun h => absurd h h1, fun h => absurd h h2, fun _ => ⟨rfl, rfl⟩⟩
  · intro c _ _
    refine ⟨?_, ?_, ?_, ?_⟩
    · by_cases ha : Judge.auto_approve_threshold < c
      · exact Or.inl ha
      · by_cases hb : Judge.auto_reject_threshold ≤ c
        · exact Or.inr (Or.inl ⟨hb, not_lt.mp ha⟩)
        · exact Or.inr (Or.inr (not_le.mp hb))
    · intro h
      constructor
      · rintro ⟨-, hb⟩
        exact absurd h (not_lt.mpr hb)
      · intro hb
        exact absurd hb (not_lt.mpr (le_of_lt (lt_trans hlt h)))
    · rintro ⟨ha, hb⟩
      exact ⟨not_lt.mpr hb, not_lt.mpr ha⟩
    · intro h
      refine ⟨fun ha => ?_, fun hb => ?_⟩
      · exact absurd h (not_lt.mpr (le_of_lt (lt_trans hlt ha)))
      · exact absurd h (not_lt.mpr hb.1)

/-- Witness for C1: the metrics (1,1,1) give confidence 1, which is
auto-approved without human review, and the confidence value 0.8 lies in
[0,1] and falls in a tier. -/
theorem assess_content_hitl_tiering_witness :
    (Judge.assess_content ⟨1, 1, 1⟩).approved = true ∧
    (Judge.assess_content ⟨1, 1, 1⟩).requires_human_review = false ∧
    (Judge.auto_approve_threshold < (8 / 10 : ℚ) ∨
      (Judge.auto_reject_threshold ≤ (8 / 10 : ℚ) ∧
        (8 / 10 : ℚ) ≤ Judge.auto_approve_threshold) ∨
      (8 / 10 : ℚ) < Judge.auto_reject_threshold) := by
  have hconf : (Judge.assess_content ⟨1, 1, 1⟩).confidence > Judge.auto_approve_threshold := by
    norm_num [Judge.assess_content, Judge.calculate_confidence,
      Judge.auto_approve_threshold, Judge.auto_reject_threshold]
  have h := (assess_content_hitl_tiering.1 ⟨1, 1, 1⟩).1 hconf
  have h2 := (assess_content_hitl_tiering.2 (8 / 10) (by norm_num) (by norm_num)).1
  exact ⟨h.1, h.2, h2⟩

/-- Claim C2: for metrics with each entry in [0,1], `calculate_confidence`
returns the weighted sum 0.3·format_correctness + 0.3·completeness +
0.4·relevance, which lies in [0,1] (so the clamp to [0,1] is inactive);
in particular the metrics (1,1,1) yield confidence 1 and (0,0,0) yield
confidence 0. -/
theorem calculate_confidence_weighted_sum :
    (∀ m : Judge.QualityMetrics,
      0 ≤ m.format_correctness → m.format_correctness ≤ 1 →
      0 ≤ m.completeness → m.completeness ≤ 1 →
      0 ≤ m.relevance → m.relevance ≤ 1 →
      Judge.calculate_confidence m =
        3 / 10 * m.format_correctness + 3 / 10 * m.completeness +
          2 / 5 * m.relevance ∧
      0 ≤ Judge.calculate_confidence m ∧ Judge.calculate_confidence m ≤ 1) ∧
    Judge.calculate_confidence ⟨1, 1, 1⟩ = 1 ∧
    Judge.calculate_confidence ⟨0, 0, 0⟩ = 0 := by
  refine ⟨?_, ?_, ?_⟩
  · intro m hf0 hf1 hc0 hc1 hr0 hr1
    have hs0 : 0 ≤ 3 / 10 * m.format_correctness + 3 / 10 * m.completeness +
        2 / 5 * m.relevance := by
      have t1 : (0 : ℚ) ≤ 3 / 10 * m.format_correctness :=
        mul_nonneg (by norm_num) hf0
      have t2 : (0 : ℚ) ≤ 3 / 10 * m.completeness :=
        mul_nonneg (by norm_num) hc0
      have t3 : (0 : ℚ) ≤ 2 / 5 * m.relevance :=
        mul_nonneg (by norm_num) hr0
      linarith
    have hs1 : 3 / 10 * m.format_correctness + 3 / 10 * m.completeness +
        2 / 5 * m.relevance ≤ 1 := by
      have t1 : 3 / 10 * m.format_correctness ≤ 3 / 10 * 1 :=
        mul_le_mul_of_nonneg_left hf1 (by norm_num)
      have t2 : 3 / 10 * m.completeness ≤ 3 / 10 * 1 :=
        mul_le_mul_of_nonneg_left hc1 (by norm_num)
      have t3 : 2 / 5 * m.relevance ≤ 2 / 5 * 1 :=
        mul_le_mul_of_nonneg_left hr1 (by norm_num)
      have : (3 : ℚ) / 10 * 1 + 3 / 10 * 1 + 2 / 5 * 1 = 1 := by norm_num
      linarith
    have key : Judge.calculate_confidence m =
        3 / 10 * m.format_correctness + 3 / 10 * m.completeness +
          2 / 5 * m.relevance := by
      unfold Judge.calculate_confidence
      rw [min_eq_right hs1, max_eq_right hs0]
    exact ⟨key, key ▸ hs0, key ▸ hs1⟩
  · norm_num [Judge.calculate_confidence]
  · norm_num [Judge.calculate_confidence]

/-- Witness for C2: the metrics (1/2, 1/2, 1/2) are in bounds and give
confidence 1/2. -/
theorem calculate_confidence_weighted_sum_witness :
    Judge.calculate_confidence ⟨1 / 2, 1 / 2, 1 / 2⟩ = 1 / 2 := by
  have h := calculate_confidence_weighted_sum.1 ⟨1 / 2, 1 / 2, 1 / 2⟩
    (by norm_num) (by norm_num) (by norm_num) (by norm_num) (by norm_num) (by norm_num)
  rw [h.1]
  norm_num

/-- Claim C8: `save_session` is guarded by optimistic concurrency control —
whenever a writer's session carries a version that differs from the stored
version, the save fails with a conflict; and in the two-concurrent-writers
scenario (both read the same stored version), the first commit succeeds and
the second writer's commit against the updated store fails with a conflict
rather than returning success and silently overwriting. -/
theorem save_session_occ_guard :
    (∀ (store : Persistence.Store) (s stored : Persistence.Session),
      store s.session_id = some stored → stored.version ≠ s.version →
      Persistence.save_session store s =
        Except.error "VersionConflictError: OCC version mismatch") ∧
    (∀ (store : Persistence.Store) (s₀ s₁ s₂ : Persistence.Session),
      store s₁.session_id = some s₀ → s₀.version = s₁.version →
      s₂.session_id = s₁.session_id → s₂.version = s₁.version →
      ∃ store', Persistence.save_session store s₁ = Except.ok store' ∧
        Persistence.save_session store' s₂ =
          Except.error "VersionConflictError: OCC version mismatch") := by
  constructor
  · intro store s stored hst hver
    simp [Persistence.save_session, hst, hver]
  · intro store s₀ s₁ s₂ hst hv hid hver
    refine ⟨fun k => if k = s₁.session_id then
        some { s₁ with version := s₁.version + 1 } else store k, ?_, ?_⟩
    · simp [Persistence.save_session, hst, hv]
    · simp [Persistence.save_session, hid, hver]

/-- Witness for C8: a concrete store holding session `sess_abc123` at
version 1 and two writers that both read version 1 — the first save
succeeds, the second fails with the version conflict. -/
theorem save_session_occ_guard_witness :
    ∃ store', Persistence.save_session
        (fun k => if k = "sess_abc123" then
          some ⟨"sess_abc123", "Research trending AI topics", "planning", 1⟩ else none)
        ⟨"sess_abc123", "Research trending AI topics", "executing", 1⟩ =
        Except.ok store' ∧
      Persistence.save_session store'
        ⟨"sess_abc123", "Research trending AI topics", "awaiting_review", 1⟩ =
        Except.error "VersionConflictError: OCC version mismatch" :=
  save_session_occ_guard.2
    (fun k => if k = "sess_abc123" then
      some ⟨"sess_abc123", "Research trending AI topics", "planning", 1⟩ else none)
    ⟨"sess_abc123", "Research trending AI topics", "planning", 1⟩
    ⟨"sess_abc123", "Research trending AI topics", "executing", 1⟩
    ⟨"sess_abc123", "Research trending AI topics", "awaiting_review", 1⟩
    (by simp) rfl rfl rfl

/-- Claim C9 counterexample: the root route handler `GET /` of `main.py`
returns HTTP 200, not 501, so it is not the case that every API route
handler returns HTTP 501 for every request. -/
theorem api_root_returns_200_not_501 :
    (Api.root "2026-02-06T21:00:00").status_code = 200 ∧
    ¬(Api.root "2026-02-06T21:00:00").status_code = 501 :=
  ⟨rfl, by decide⟩

/-- Claim C9 (amended): every agent API route handler under the /planner,
/worker and /judge routers raises HTTP 501 for every request (in
particular POST /judge/assess raises 501 for every request body); the root
and health handlers of `main.py` return HTTP 200; and every persistence
method returns trivially (the save methods return True and the get methods
return None for every input). -/
theorem api_scaffold_stub_behavior :
    (∀ (Req Res : Type) (request : Req),
      (@Api.judge_assess Req Res request) = Except.error ⟨501, "Judge agent not yet implemented"⟩ ∧
      (@Api.planner_submit_goal Req Res request) =
        Except.error ⟨501, "Planner agent not yet implemented"⟩ ∧
      (@Api.worker_execute_task Req Res request) =
        Except.error ⟨501, "Worker agent not yet implemented"⟩) ∧
    (∀ (Req Res : Type) (review_id : String) (request : Req),
      (@Api.judge_approve_review Req Res review_id request) =
        Except.error ⟨501, "Review approval not yet implemented"⟩ ∧
      (@Api.judge_reject_review Req Res review_id request) =
        Except.error ⟨501, "Review rejection not yet implemented"⟩) ∧
    (∀ (Res : Type) (session_id task_id : String),
      (@Api.judge_get_pending_reviews Res ()) =
        Except.error ⟨501, "Review listing not yet implemented"⟩ ∧
      (@Api.planner_get_tasks Res session_id) =
        Except.error ⟨501, "Task retrieval not yet implemented"⟩ ∧
      (@Api.worker_get_task_status Res task_id) =
        Except.error ⟨501, "Task status retrieval not yet implemented"⟩) ∧
    (∀ now : String, (Api.root now).status_code = 200 ∧
      (Api.health_check now).status_code = 200) ∧
    (∀ s : Persistence.Session, Persistence.Stub.save_session s = true) ∧
    (∀ session_id : String, Persistence.Stub.get_session session_id = none) ∧
    (∀ (α : Type) (x : α) (task_id review_id : String),
      Persistence.Stub.save_task x = true ∧
      Persistence.Stub.save_review x = true ∧
      (@Persistence.Stub.get_task α task_id) = none ∧
      (@Persistence.Stub.get_review α review_id) = none) := by
  refine ⟨fun _ _ _ => ⟨rfl, rfl, rfl⟩,
    fun _ _ _ _ => ⟨rfl, rfl⟩,
    fun _ _ _ => ⟨rfl, rfl, rfl⟩,
    fun _ => ⟨rfl, rfl⟩,
    fun _ => rfl,
    fun _ => rfl,
    fun _ _ _ _ => ⟨rfl, rfl, rfl, rfl⟩⟩

end Chimera
